import Mathlib

/-!
Verification of the AnaPico APSYN420 qcodes driver
(src/qcodes/instrument_drivers/AnaPico/APSYN420.py) against its
natural-language specification.

The driver is shallowly embedded: pure helper methods become Lean functions
on strings; the stateful transaction layer (per-command open/use/close of the
VISA handle) becomes explicit state passing over a record holding the stored
handle, together with a trace of transport events; the transport itself (the
pyvisa resource) is an external collaborator, so its responses and return
codes are arguments of the embedded functions.  Pieces of the qcodes package
the driver calls but that are not part of the staged source (the
VisaInstrument base class, the validator classes, the Python builtins int
and float used as value parse functions) are modelled from the words of the
specification and marked as such in their doc comments.
-/

namespace APSYN420

/-! ## Python string helpers

The driver calls str.strip, str.upper, str.startswith and the builtins
int(...) and float(...) on instrument replies.  These are embedded below at
the character-list level, restricted to the ASCII strings a SCPI instrument
exchanges. -/

/-- The whitespace characters Python str.strip removes
(space, tab, newline, carriage return, vertical tab, form feed). -/
def pyIsSpace (c : Char) : Bool :=
  c = ' ' || c = '\t' || c = '\n' || c = '\r' || c = '\x0b' || c = '\x0c'

/-- Python str.strip on a character list: drop whitespace from both ends. -/
def pyStripChars (cs : List Char) : List Char :=
  ((cs.dropWhile pyIsSpace).reverse.dropWhile pyIsSpace).reverse

/-- Python str.strip. -/
def pyStrip (s : String) : String := ⟨pyStripChars s.data⟩

/-- Python str.upper on the ASCII strings exchanged with the instrument:
each character is mapped to its uppercase form (Char.toUpper maps a-z to
A-Z and fixes everything else, which agrees with Python on ASCII). -/
def pyUpper (s : String) : String := ⟨s.data.map Char.toUpper⟩

/-- Python str.startswith with a one-character argument, as the driver uses
it: true exactly when the string is nonempty and its first character is c. -/
def pyStartsWith1 (s : String) (c : Char) : Bool :=
  match s.data with
  | [] => false
  | d :: _ => d = c

/-- Accumulator pass of a decimal-numeral read: fails on the first
non-digit character. -/
def natOfDigitsAux : List Char → Nat → Option Nat
  | [], acc => some acc
  | c :: cs, acc =>
      if c.isDigit then natOfDigitsAux cs (10 * acc + (c.toNat - 48)) else none

/-- A nonempty all-digit character list read as a natural number. -/
def natOfDigits (cs : List Char) : Option Nat :=
  match cs with
  | [] => none
  | _ :: _ => natOfDigitsAux cs 0

/-- Modelled from the spec: the Python builtin int(...) applied to an
instrument reply — the reply parses exactly when, after stripping
surrounding whitespace, it is an optionally signed nonempty decimal
numeral; otherwise the parse is a Parse Failure (ValueError).  (The
underscore digit grouping Python also accepts never occurs in instrument
replies and is not modelled.) -/
def pyInt (s : String) : Option Int :=
  match (pyStrip s).data with
  | '+' :: cs => (natOfDigits cs).map (fun n => (n : Int))
  | '-' :: cs => (natOfDigits cs).map (fun n => -(n : Int))
  | cs => (natOfDigits cs).map (fun n => (n : Int))

/-- Consume leading decimal digits: how many were consumed and the rest. -/
def consumeDigits : List Char → Nat × List Char
  | [] => (0, [])
  | c :: cs =>
      if c.isDigit then
        let (n, r) := consumeDigits cs
        (n + 1, r)
      else (0, c :: cs)

/-- A well-formed exponent tail of a float literal: either nothing, or
e/E, an optional sign, and at least one digit ending the string. -/
def expTailOk (cs : List Char) : Bool :=
  match cs with
  | [] => true
  | 'e' :: r | 'E' :: r =>
      let r := match r with
        | '+' :: r2 => r2
        | '-' :: r2 => r2
        | r2 => r2
      let (n, rest) := consumeDigits r
      decide (1 ≤ n) && rest.isEmpty
  | _ => false

/-- A well-formed unsigned float mantissa with optional exponent:
digits with an optional fractional part, or a fractional part alone,
at least one digit in total, then a well-formed exponent tail. -/
def mantExpOk (cs : List Char) : Bool :=
  let (n1, r1) := consumeDigits cs
  match r1 with
  | '.' :: r2 =>
      let (n2, r3) := consumeDigits r2
      decide (1 ≤ n1 + n2) && expTailOk r3
  | _ => decide (1 ≤ n1) && expTailOk r1

/-- Modelled from the spec: acceptance of the Python builtin float(...)
used as the frequency get parse function — a reply is accepted exactly
when, after stripping surrounding whitespace and an optional sign, it is a
well-formed decimal numeral (digits, optional fraction, optional exponent)
or one of the special words inf, infinity, nan in any letter case. -/
def pyFloatWellFormed (s : String) : Bool :=
  let cs := (pyStrip s).data
  let cs := match cs with
    | '+' :: r => r
    | '-' :: r => r
    | r => r
  let lower := cs.map Char.toLower
  if lower = ['i','n','f'] || lower = ['i','n','f','i','n','i','t','y'] ||
     lower = ['n','a','n'] then true
  else mantExpOk cs

/-- Modelled from the spec: the Python builtin float(...) as the frequency
get parse function.  The spec constrains only acceptance and failure
("parsing a query response as a number ... fails with a Parse Failure if
the response is not a well-formed numeral"), so the parsed value is
represented by the accepted literal (stripped), and a malformed reply is a
Parse Failure carrying the offending reply. -/
def pyFloatRead (s : String) : Except String String :=
  if pyFloatWellFormed s then Except.ok (pyStrip s) else Except.error s

/-! ## The pure parse methods of the driver (source lines 117-125) -/

/-- The method parse_on_off of APSYN420: a reply starting with the
character 0 becomes off, a reply starting with 1 becomes on, and any other
reply (including the empty reply) is returned unchanged. -/
def parse_on_off (stat : String) : String :=
  if pyStartsWith1 stat '0' then "off"
  else if pyStartsWith1 stat '1' then "on"
  else stat

/-- The method parse_str of APSYN420: strip surrounding whitespace, then
map to uppercase. -/
def parse_str (string : String) : String := pyUpper (pyStrip string)

/-! ## Validators and the parameter registry -/

/-- Modelled from the spec: the numeric range validator vals.Numbers(min,
max) used by the frequency parameter — a numeric value is valid exactly
when it lies in the closed interval from the lower to the upper bound. -/
def Numbers_is_valid (lo hi v : ℚ) : Bool :=
  decide (lo ≤ v) && decide (v ≤ hi)

/-- The frequency set validator as constructed on source line 36:
vals.Numbers(2490236, 20e9). -/
def frequency_vals (v : ℚ) : Bool := Numbers_is_valid 2490236 20000000000 v

/-- One pass of Python str.format with one positional argument over the
template characters: the first bare brace-pair placeholder is replaced by
the value. -/
def pyFormat1Chars (t v : List Char) : List Char :=
  match t with
  | [] => []
  | '\x7b' :: '\x7d' :: rest => v ++ rest
  | c :: rest => c :: pyFormat1Chars rest v

/-- Python str.format with one positional argument and the set command
templates the two pulse-modulation parameters use (one bare brace-pair
placeholder): the placeholder is replaced by the rendered value. -/
def pyFormat1 (template value : String) : String :=
  ⟨pyFormat1Chars template.data value.data⟩

/-- One row of the parameter registry: the set command template, the get
command, and the value alias table (user value to raw instrument token). -/
structure ParamSpec where
  set_cmd : String
  get_cmd : String
  val_mapping : List (String × String)
deriving DecidableEq, Repr

/-- The pulm_polarity parameter as registered on source lines 57-63. -/
def pulm_polarity_param : ParamSpec :=
  ⟨"PULM:POL \x7b\x7d", "PULM:POL?", [("Normal", "NORM"), ("Inverted", "INV")]⟩

/-- The pulm_source parameter as registered on source lines 65-69: its set
and get commands address PULM:POL, not PULM:SOUR. -/
def pulm_source_param : ParamSpec :=
  ⟨"PULM:POL \x7b\x7d", "PULM:POL?", [("Internal", "INT"), ("External", "EXT")]⟩

/-- Look a user-facing value up in a val_mapping alias table. -/
def mapValue (m : List (String × String)) (v : String) : Option String :=
  (m.find? (fun q => q.1 = v)).map (fun q => q.2)

/-- The command a set of the parameter puts on the wire for a user value:
the alias table maps the value to its raw token and the token is
substituted into the set command template; values outside the alias table
are rejected by the validator the table induces, so they render nothing. -/
def renderSet (p : ParamSpec) (v : String) : Option String :=
  (mapValue p.val_mapping v).map (pyFormat1 p.set_cmd)

/-- Every command string a parameter can put on the wire: its get command,
and its set command rendered at each raw token of its alias table (the
alias table doubles as the set validator, so no other set value is
accepted). -/
def paramCommands (p : ParamSpec) : List String :=
  p.get_cmd :: p.val_mapping.map (fun q => pyFormat1 p.set_cmd q.2)

/-- Whether the pattern character list starts the string character list. -/
def startsWithChars : List Char → List Char → Bool
  | [], _ => true
  | _ :: _, [] => false
  | p :: ps, c :: cs => p = c && startsWithChars ps cs

/-- Whether the string s starts with the string p, at the character level
(kernel-evaluable form of String.startsWith). -/
def strStartsWith (s p : String) : Bool := startsWithChars p.data s.data

/-! ## The transaction layer: handle state and transport traces

The VISA transport is an external collaborator, so each embedded operation
takes the transport outputs it consumes (a write return code, a query
response) as arguments and returns, besides its Python return value, the
updated driver state and the list of transport events the call emitted. -/

/-- The mutable state the driver keeps across calls: the configured VISA
resource address (self._address) and the stored handle (self.visa_handle),
which is null between per-command calls.  The handle carries no data of its
own in the embedding, only whether it is open. -/
structure DriverState where
  _address : String
  visa_handle : Option Unit
deriving DecidableEq, Repr

/-- One transport event: opening a resource bound to an address, a raw
write, a combined write-and-read query, or closing the handle. -/
inductive Ev where
  | openR (address : String)
  | write (cmd : String)
  | query (cmd : String)
  | close
deriving DecidableEq, Repr

/-- How many open events a trace holds. -/
def openCount (tr : List Ev) : Nat :=
  tr.countP fun e => match e with | Ev.openR _ => true | _ => false

/-- How many close events a trace holds. -/
def closeCount (tr : List Ev) : Nat :=
  tr.countP fun e => match e with | Ev.close => true | _ => false

/-- How many write events a trace holds. -/
def writeCount (tr : List Ev) : Nat :=
  tr.countP fun e => match e with | Ev.write _ => true | _ => false

/-- How many query events a trace holds. -/
def queryCount (tr : List Ev) : Nat :=
  tr.countP fun e => match e with | Ev.query _ => true | _ => false

/-- Modelled from the spec: VisaInstrument.check_error, called by the
driver but defined in the qcodes base class outside the staged source —
"the underlying write primitive may return a device-reported error code;
the Transaction Layer surfaces this as a Command Failure carrying the
code, without retry": a nonzero return code raises, a zero code is
success. -/
def check_error (ret_code : Int) : Except Int Unit :=
  if ret_code = 0 then Except.ok () else Except.error ret_code

/-- The method write_raw_close of APSYN420 (source lines 71-87), the
PerCommand send path.  After the debug log line (no transport effect): if
no handle is stored, open one bound to self._address; write the command,
obtaining the transport return code; pass the code to check_error — when
check_error raises, the exception propagates and the two lines that close
and null the handle are skipped; otherwise close the handle and store
None.  Returns the Python outcome (unit or the propagated error code), the
driver state after the call, and the transport events emitted. -/
def write_raw_close (s : DriverState) (cmd : String) (ret_code : Int) :
    Except Int Unit × DriverState × List Ev :=
  let (s1, evOpen) :=
    if s.visa_handle = none then
      ({ s with visa_handle := some () }, [Ev.openR s._address])
    else (s, [])
  let evWrite := [Ev.write cmd]
  match check_error ret_code with
  | Except.error e => (Except.error e, s1, evOpen ++ evWrite)
  | Except.ok _ =>
      (Except.ok (), { s1 with visa_handle := none },
       evOpen ++ evWrite ++ [Ev.close])

/-- The method ask_raw_close of APSYN420 (source lines 89-107), the
PerCommand query path.  After the debug log line: if no handle is stored,
open one bound to self._address; then return the transport query response
directly.  The two statements that close and null the handle stand after
the return statement (source lines 106-107), so they are unreachable and
do not appear in the embedding: the call ends with the handle still open
and stored.  Returns the response, the state after the call, and the
transport events emitted. -/
def ask_raw_close (s : DriverState) (cmd : String) (response : String) :
    String × DriverState × List Ev :=
  let (s1, evOpen) :=
    if s.visa_handle = none then
      ({ s with visa_handle := some () }, [Ev.openR s._address])
    else (s, [])
  (response, s1, evOpen ++ [Ev.query cmd])

/-! ## Method rebinding (source lines 109-115)

The driver switches modes by assigning to instance attributes.  The
dispatch state is embedded as a record of which implementation each of the
three relevant attributes currently refers to. -/

/-- Which implementation a raw-operation attribute refers to: the base
always-open implementation inherited from VisaInstrument, or the
per-command close variant defined by the driver. -/
inductive RawImpl where
  | base
  | closeVariant
deriving DecidableEq, Repr

/-- Which implementation the attribute named write refers to: the
inherited high-level write method (which formats and delegates to
write_raw), or — after dont_close_after assigns VisaInstrument.write_raw
to it — the base raw write function. -/
inductive WriteAttrImpl where
  | instrumentWrite
  | visaWriteRawFn
deriving DecidableEq, Repr

/-- The dispatch state of the three attributes the mode switch touches. -/
structure MethodTable where
  ask_raw : RawImpl
  write_raw : RawImpl
  write : WriteAttrImpl
deriving DecidableEq, Repr

/-- The dispatch state a fresh instance starts from: every attribute
resolves to the inherited base implementation. -/
def initMethodTable : MethodTable :=
  ⟨RawImpl.base, RawImpl.base, WriteAttrImpl.instrumentWrite⟩

/-- The method close_after (source lines 109-111): assigns the bound
per-command close variants to the instance attributes ask_raw and
write_raw. -/
def close_after (t : MethodTable) : MethodTable :=
  { t with ask_raw := RawImpl.closeVariant, write_raw := RawImpl.closeVariant }

/-- The method dont_close_after (source lines 113-115), exactly as
written: line 114 assigns VisaInstrument.ask_raw to the attribute ask_raw,
but line 115 assigns VisaInstrument.write_raw to the attribute named
write — not to write_raw, which therefore keeps whatever it referred to
before the call. -/
def dont_close_after (t : MethodTable) : MethodTable :=
  { t with ask_raw := RawImpl.base, write := WriteAttrImpl.visaWriteRawFn }

/-! ## The constructor (source lines 21-69) -/

/-- One step of the constructor, in order: the base-class open of the VISA
resource (modelled from the spec: "the handle is opened exactly once at
construction"), the two termination settings, the initial raw query, the
explicit handle close, the rebinding to the per-command variants, and each
parameter registration. -/
inductive InitEvent where
  | openHandle (address : String)
  | setWriteTermination (t : String)
  | setReadTerminationNone
  | askRaw (cmd : String)
  | closeHandle
  | rebindPerCommand
  | registerParam (pname : String)
deriving DecidableEq, Repr

/-- The six parameter names, in registration order (source lines 33-69). -/
def paramNames : List String :=
  ["frequency", "blanking", "output", "pulm_state", "pulm_polarity",
   "pulm_source"]

/-- The constructor of APSYN420 (source lines 21-69): the base-class init
opens the handle bound to the address; the write termination is set and
the read termination cleared; a raw FREQ? query is issued over that fresh
handle; then, exactly when close_after_every_command holds, the handle is
closed, the stored handle set to None, and close_after rebinds ask_raw and
write_raw to the per-command variants; finally the six parameters are
registered.  Returns the ordered event list, the driver state after
construction, and the dispatch state after construction. -/
def APSYN420_init (_name address : String) (close_after_every_command : Bool) :
    List InitEvent × DriverState × MethodTable :=
  let pre := [InitEvent.openHandle address,
              InitEvent.setWriteTermination "\r\n",
              InitEvent.setReadTerminationNone,
              InitEvent.askRaw "FREQ?"]
  let (mid, st, tbl) :=
    if close_after_every_command then
      ([InitEvent.closeHandle, InitEvent.rebindPerCommand],
       ({ _address := address, visa_handle := none } : DriverState),
       close_after initMethodTable)
    else
      ([], ({ _address := address, visa_handle := some () } : DriverState),
       initMethodTable)
  (pre ++ mid ++ paramNames.map InitEvent.registerParam, st, tbl)

/-! ## set_external_reference (source lines 127-139) -/

/-- How a call of set_external_reference ends after its four writes:
a normal return once a lock reply parses to the integer 1 (polls counts
the ROSC:LOCK? queries issued); a propagated Parse Failure when a lock
reply is not a well-formed integer (the int builtin raises in the loop
condition); or a propagated NameError — the loop body after print calls
qt.msleep(1), and the name qt is bound nowhere in the module (it is never
imported), so the first execution of the body raises. -/
inductive LockOutcome where
  | locked (polls : Nat)
  | parseFailure (reply : String)
  | nameError (polls : Nat)
deriving DecidableEq, Repr

/-- The lock-wait loop of set_external_reference (source lines 137-139) as
written.  The condition queries ROSC:LOCK? and parses the stripped reply
with int.  When the first reply fails to parse, the condition raises a
Parse Failure.  When it parses to 1, the loop exits at once and the call
returns.  When it parses to any other integer, the body runs: the print
succeeds, and then qt.msleep(1) raises NameError because qt is never
imported — so no second query is ever issued and the loop never reaches a
second iteration. -/
def rosc_lock_wait (replies : Nat → String) : LockOutcome :=
  match pyInt (pyStrip (replies 0)) with
  | none => LockOutcome.parseFailure (replies 0)
  | some v =>
      if v = 1 then LockOutcome.locked 1
      else LockOutcome.nameError 1

/-- The method set_external_reference (source lines 127-139): issues the
four reference-configuration writes in order, the numeric argument
rendered with the %d conversion, then enters the lock-wait loop.  The
frequency is taken as a natural number (the %d conversion truncates the
default float 10e6 to the integer 10000000).  Returns the write commands
in order and how the lock wait ends. -/
def set_external_reference (frequency : Nat) (replies : Nat → String) :
    List String × LockOutcome :=
  (["ROSC:SOUR EXT",
    "ROSC:EXT:FREQ " ++ toString frequency,
    "ROSC:OUTP:STATE 1",
    "ROSC:OUTP:FREQ " ++ toString frequency],
   rosc_lock_wait replies)

/-- The frequency get in PerCommand mode: the get command FREQ? is issued
through ask_raw_close and the reply is passed to the get parse function
float. -/
def frequency_get_per_command (s : DriverState) (response : String) :
    Except String String × DriverState × List Ev :=
  let (r, s1, tr) := ask_raw_close s "FREQ?" response
  (pyFloatRead r, s1, tr)

/-! ## The claims -/

/-- C1 counterexample: at the concrete call below (no stored handle, the
transport write reports error code 7) check_error raises before the close
lines run, so the close count of the call is 0 — not 1 as the claim
states — and the stored handle is still open after the call, refuting the
claim that the handle is closed and nulled on every exit path of
write_raw_close, including the error path. -/
theorem C1_close_on_error_counterexample :
    closeCount (write_raw_close ⟨"TCPIP0::192.168.15.100::inst0::INSTR",
      none⟩ "OUTP 1" 7).2.2 = 0 ∧
    (write_raw_close ⟨"TCPIP0::192.168.15.100::inst0::INSTR",
      none⟩ "OUTP 1" 7).2.1.visa_handle = some () ∧
    (write_raw_close ⟨"TCPIP0::192.168.15.100::inst0::INSTR",
      none⟩ "OUTP 1" 7).1 = Except.error 7 := by
  refine ⟨by decide, by decide, rfl⟩

/-- C1 (amended): for every PerCommand send through write_raw_close that
starts with no stored handle, the handle is opened bound to the configured
address (open count 1, the open is the first transport event) and written
exactly once; when the transport reports return code 0 the handle is
closed before the call returns and the stored handle is null afterwards
(close count 1); when the transport reports a nonzero error code the
Command Failure propagates before the close lines run, so the close count
is 0 and the stored handle is still open after the call. -/
theorem C1_per_command_send_lifecycle (s : DriverState) (cmd : String)
    (ret : Int) (h : s.visa_handle = none) :
    openCount (write_raw_close s cmd ret).2.2 = 1 ∧
    writeCount (write_raw_close s cmd ret).2.2 = 1 ∧
    (write_raw_close s cmd ret).2.2.head? = some (Ev.openR s._address) ∧
    (ret = 0 →
      closeCount (write_raw_close s cmd ret).2.2 = 1 ∧
      (write_raw_close s cmd ret).2.1.visa_handle = none ∧
      (write_raw_close s cmd ret).1 = Except.ok ()) ∧
    (ret ≠ 0 →
      closeCount (write_raw_close s cmd ret).2.2 = 0 ∧
      (write_raw_close s cmd ret).2.1.visa_handle = some () ∧
      (write_raw_close s cmd ret).1 = Except.error ret) := by
  unfold write_raw_close check_error
  by_cases hr : ret = 0 <;>
    simp [h, hr, openCount, closeCount, writeCount, List.countP_append,
      List.countP_cons, List.countP_nil]

/-- C1 witness: the amended per-command send lifecycle at a concrete
successful call from a null handle. -/
theorem C1_per_command_send_lifecycle_witness :
    openCount (write_raw_close ⟨"A", none⟩ "OUTP 1" 0).2.2 = 1 ∧
    writeCount (write_raw_close ⟨"A", none⟩ "OUTP 1" 0).2.2 = 1 ∧
    (write_raw_close ⟨"A", none⟩ "OUTP 1" 0).2.2.head? = some (Ev.openR "A") ∧
    ((0 : Int) = 0 →
      closeCount (write_raw_close ⟨"A", none⟩ "OUTP 1" 0).2.2 = 1 ∧
      (write_raw_close ⟨"A", none⟩ "OUTP 1" 0).2.1.visa_handle = none ∧
      (write_raw_close ⟨"A", none⟩ "OUTP 1" 0).1 = Except.ok ()) ∧
    ((0 : Int) ≠ 0 →
      closeCount (write_raw_close ⟨"A", none⟩ "OUTP 1" 0).2.2 = 0 ∧
      (write_raw_close ⟨"A", none⟩ "OUTP 1" 0).2.1.visa_handle = some () ∧
      (write_raw_close ⟨"A", none⟩ "OUTP 1" 0).1 = Except.error 0) :=
  C1_per_command_send_lifecycle ⟨"A", none⟩ "OUTP 1" 0 rfl

/-- C2 counterexample: when a PerCommand query starts with the handle
already open — exactly the state every prior PerCommand query leaves
behind, since ask_raw_close never closes — no open happens, so the open
count of that call is 0, refuting the claim that every call to
ask_raw_close has open count 1. -/
theorem C2_open_count_counterexample :
    openCount (ask_raw_close ⟨"A", some ()⟩ "OUTP?" "1").2.2 = 0 ∧
    ¬ openCount (ask_raw_close ⟨"A", some ()⟩ "OUTP?" "1").2.2 = 1 := by
  refine ⟨by decide, by decide⟩

/-- C2 (amended): every PerCommand query through ask_raw_close returns the
transport response unchanged and issues exactly one query event; it never
closes the handle (the close lines stand after the return statement and
are unreachable) and leaves the stored handle open after the call; the
handle is opened exactly when no handle was stored at entry, so the open
count of the call is 1 from a null stored handle and 0 from an already
open one. -/
theorem C2_per_command_query_lifecycle (s : DriverState)
    (cmd response : String) :
    (ask_raw_close s cmd response).1 = response ∧
    closeCount (ask_raw_close s cmd response).2.2 = 0 ∧
    queryCount (ask_raw_close s cmd response).2.2 = 1 ∧
    (ask_raw_close s cmd response).2.1.visa_handle = some () ∧
    openCount (ask_raw_close s cmd response).2.2 =
      (if s.visa_handle = none then 1 else 0) := by
  unfold ask_raw_close
  cases hv : s.visa_handle with
  | none =>
      simp [hv, openCount, closeCount, queryCount, List.countP_append,
        List.countP_cons, List.countP_nil]
  | some u =>
      simp [hv, openCount, closeCount, queryCount, List.countP_append,
        List.countP_cons, List.countP_nil]

/-- C3: evaluation of the code at the failing call sequence — construct in
PerCommand mode (close_after has rebound both raw operations) and then
call dont_close_after.  The attribute ask_raw is rebound to the base
implementation, but source line 115 assigns the base raw write to the
attribute named write instead of write_raw, so write_raw still refers to
the per-command close variant and subsequent sends do not dispatch to the
base variant, contrary to the claim (and to the evident intent of the
method). -/
theorem C3_dont_close_after_eval :
    (dont_close_after (close_after initMethodTable)).ask_raw = RawImpl.base ∧
    (dont_close_after (close_after initMethodTable)).write_raw =
      RawImpl.closeVariant ∧
    (dont_close_after (close_after initMethodTable)).write_raw ≠
      RawImpl.base ∧
    (dont_close_after (close_after initMethodTable)).write =
      WriteAttrImpl.visaWriteRawFn := by
  decide

/-- C4: evaluation of the code at the failing input — frequency 10000000
and a first ROSC:LOCK? reply of "0" (lock not yet achieved).  The four
configuration writes are issued in order as the claim states, but the loop
body, which the claim says sleeps one time unit and re-polls without any
error path, raises NameError: it calls qt.msleep(1) and the name qt is
never imported in the module.  The call therefore aborts after a single
poll instead of polling until lock; the second conjunct shows the normal
return when the first reply strips to the integer 1. -/
theorem C4_set_external_reference_eval :
    set_external_reference 10000000 (fun _ => "0") =
      (["ROSC:SOUR EXT", "ROSC:EXT:FREQ 10000000", "ROSC:OUTP:STATE 1",
        "ROSC:OUTP:FREQ 10000000"], LockOutcome.nameError 1) ∧
    rosc_lock_wait (fun _ => " 1\n") = LockOutcome.locked 1 := by
  refine ⟨rfl, by decide⟩

/-- C5: the pulm_source parameter addresses the pulse-modulation polarity
register — its alias table is Internal to INT and External to EXT, its
rendered set commands are PULM:POL INT and PULM:POL EXT, its get command
is PULM:POL?, these three are the only commands it can put on the wire and
none of them starts with PULM:SOUR, and its set and get command strings
are exactly those of pulm_polarity. -/
theorem C5_pulm_source_uses_polarity_commands :
    pulm_source_param.val_mapping = [("Internal", "INT"), ("External", "EXT")] ∧
    renderSet pulm_source_param "Internal" = some "PULM:POL INT" ∧
    renderSet pulm_source_param "External" = some "PULM:POL EXT" ∧
    pulm_source_param.get_cmd = "PULM:POL?" ∧
    paramCommands pulm_source_param =
      ["PULM:POL?", "PULM:POL INT", "PULM:POL EXT"] ∧
    (paramCommands pulm_source_param).all
      (fun c => !(strStartsWith c "PULM:SOUR")) = true ∧
    pulm_source_param.set_cmd = pulm_polarity_param.set_cmd ∧
    pulm_source_param.get_cmd = pulm_polarity_param.get_cmd := by
  decide

/-- C6: parse_on_off maps a reply whose first character is 0 to off and a
reply whose first character is 1 to on, and returns every other reply —
any other leading character, or the empty reply — unchanged; the result
depends only on the first character, and in particular "3 extra" is passed
through unchanged. -/
theorem C6_parse_on_off_first_char (s : String) :
    parse_on_off s =
      (if s.data.head? = some '0' then "off"
       else if s.data.head? = some '1' then "on" else s) ∧
    parse_on_off "3 extra" = "3 extra" := by
  refine ⟨?_, by decide⟩
  unfold parse_on_off pyStartsWith1
  cases h : s.data with
  | nil => simp [h]
  | cons c cs =>
      by_cases h0 : c = '0'
      · simp [h, h0]
      · by_cases h1 : c = '1' <;> simp [h, h0, h1]

/-- C7: the frequency set validator accepts exactly the numeric values
between 2490236 and 20000000000 inclusive; the boundary values 2490236 and
20000000000 are accepted, and 2490235 and 20000000001 — one below and one
above the bounds — are rejected. -/
theorem C7_frequency_validator_range :
    frequency_vals 2490235 = false ∧
    frequency_vals 2490236 = true ∧
    frequency_vals 20000000000 = true ∧
    frequency_vals 20000000001 = false ∧
    ∀ v : ℚ, frequency_vals v = true ↔ (2490236 ≤ v ∧ v ≤ 20000000000) := by
  refine ⟨by decide, by decide, by decide, by decide, fun v => ?_⟩
  simp [frequency_vals, Numbers_is_valid]

/-- C8: parse_str strips surrounding whitespace from a reply and maps
every remaining character to uppercase; in particular the reply of two
spaces, norm, a space and a newline maps to NORM. -/
theorem C8_parse_str_normalizes (s : String) :
    (parse_str s).data = (pyStripChars s.data).map Char.toUpper ∧
    parse_str "  norm \n" = "NORM" := by
  refine ⟨rfl, by decide⟩

/-- C9: numeric Parse Failures propagate to the caller — a PerCommand
frequency get whose reply is not a well-formed numeral ends in a Parse
Failure carrying the reply (the float parse is applied to the response and
no handler in the driver catches it), and a first ROSC:LOCK? reply that
does not strip to a well-formed integer makes set_external_reference end
in a propagated Parse Failure carrying the reply (the int parse raises in
the loop condition and no handler in the driver catches it). -/
theorem C9_parse_failures_propagate (s : DriverState) (response : String)
    (f : Nat) (replies : Nat → String)
    (h1 : pyFloatWellFormed response = false)
    (h2 : pyInt (pyStrip (replies 0)) = none) :
    (frequency_get_per_command s response).1 = Except.error response ∧
    (set_external_reference f replies).2 =
      LockOutcome.parseFailure (replies 0) := by
  constructor
  · simp [frequency_get_per_command, ask_raw_close, pyFloatRead, h1]
  · simp [set_external_reference, rosc_lock_wait, h2]

/-- C9 witness: both Parse Failure propagation paths at the concrete
malformed reply "abc". -/
theorem C9_parse_failures_propagate_witness :
    (frequency_get_per_command ⟨"A", none⟩ "abc").1 = Except.error "abc" ∧
    (set_external_reference 10000000 (fun _ => "abc")).2 =
      LockOutcome.parseFailure "abc" :=
  C9_parse_failures_propagate ⟨"A", none⟩ "abc" 10000000 (fun _ => "abc")
    (by decide) (by decide)

/-- C10: the constructor issues the initial raw FREQ? query over the
freshly opened handle before any parameter registration, in both modes;
and with close_after_every_command true (the default) it closes the handle
and nulls it before rebinding ask_raw and write_raw to the per-command
variants, so the state after construction stores no handle and the first
subsequent send or query must open a fresh connection bound to the
configured address as its first transport event. -/
theorem C10_init_sequence (nm addr : String) :
    (APSYN420_init nm addr true).1 =
      [InitEvent.openHandle addr, InitEvent.setWriteTermination "\r\n",
       InitEvent.setReadTerminationNone, InitEvent.askRaw "FREQ?",
       InitEvent.closeHandle, InitEvent.rebindPerCommand,
       InitEvent.registerParam "frequency", InitEvent.registerParam "blanking",
       InitEvent.registerParam "output", InitEvent.registerParam "pulm_state",
       InitEvent.registerParam "pulm_polarity",
       InitEvent.registerParam "pulm_source"] ∧
    (APSYN420_init nm addr false).1 =
      [InitEvent.openHandle addr, InitEvent.setWriteTermination "\r\n",
       InitEvent.setReadTerminationNone, InitEvent.askRaw "FREQ?",
       InitEvent.registerParam "frequency", InitEvent.registerParam "blanking",
       InitEvent.registerParam "output", InitEvent.registerParam "pulm_state",
       InitEvent.registerParam "pulm_polarity",
       InitEvent.registerParam "pulm_source"] ∧
    (APSYN420_init nm addr true).2.1 = ⟨addr, none⟩ ∧
    (APSYN420_init nm addr true).2.2 =
      ⟨RawImpl.closeVariant, RawImpl.closeVariant,
       WriteAttrImpl.instrumentWrite⟩ ∧
    (∀ cmd ret,
      ((write_raw_close (APSYN420_init nm addr true).2.1 cmd ret).2.2).head? =
        some (Ev.openR addr)) ∧
    (∀ cmd resp,
      ((ask_raw_close (APSYN420_init nm addr true).2.1 cmd resp).2.2).head? =
        some (Ev.openR addr)) := by
  refine ⟨rfl, rfl, rfl, rfl, ?_, fun cmd resp => rfl⟩
  intro cmd ret
  unfold write_raw_close check_error
  by_cases hr : ret = 0 <;> simp [hr, APSYN420_init]

end APSYN420
